import Mathlib

/-
A verification development for the UPClientZenoh transport adapter
(up_client_zenoh/upclientzenoh.py).  The adapter implements a
vendor-neutral message-bus contract (publish, notification, request,
response) on top of the zenoh pub/sub-and-query substrate.

The Python source is shallowly embedded here:
- protobuf messages become plain structures; a protobuf key used through
  SerializeToString is modelled by the structure itself (serialization is
  injective, and dictionary keys compare by serialized bytes);
- the external collaborators (ZenohUtils metadata codec, the uprotocol
  validators and URI classifiers, the zenoh session) are parameters: each
  adapter operation takes the outcome of every external call it performs;
- python dictionaries become association lists with insert, lookup and
  erase operations;
- an operation that can raise returns Except, and the substrate calls an
  operation performs (session.put, session.get, query.reply) are returned
  as explicit records so that theorems can state which calls happened.

Two facts of the Python protobuf runtime matter repeatedly and are made
explicit as named constants with documentation where they are used:
- reading a message-typed field never yields None (it yields a possibly
  default instance), and protobuf messages define no dunder bool, so a
  message-typed field read is always truthy;
- reading a scalar field (such as ttl) never yields None either; an unset
  scalar reads as its default value 0.
-/

/-! ## Data model (protobuf messages of uprotocol) -/

/-- Opaque byte strings (payload bytes, serialized forms). -/
abbrev Bytes := List Nat

/-- Listener objects are referenced by identity; an opaque identifier. -/
abbrev Listener := Nat

/-- UAuthority protobuf message (only the parts the adapter observes). -/
structure UAuthority where
  name : String
deriving DecidableEq

/-- UEntity protobuf message. -/
structure UEntity where
  name : String
deriving DecidableEq

/-- UResource protobuf message. -/
structure UResource where
  name : String
  id : Nat
deriving DecidableEq

/-- UUri protobuf message: authority, entity, resource.  All three are
message-typed fields; an unset field reads as the default instance. -/
structure UUri where
  authority : UAuthority
  entity : UEntity
  resource : UResource
deriving DecidableEq

/-- The default (unset) UAuthority instance. -/
def default_uauthority : UAuthority := { name := "" }

/-- The default (unset) UEntity instance. -/
def default_uentity : UEntity := { name := "" }

/-- The default (unset) UResource instance. -/
def default_uresource : UResource := { name := "", id := 0 }

/-- The default (unset) UUri instance. -/
def default_uuri : UUri :=
  { authority := default_uauthority, entity := default_uentity, resource := default_uresource }

/-- UUID protobuf message, used for message ids and correlation ids. -/
structure UUID where
  msb : Nat
  lsb : Nat
deriving DecidableEq

/-- The default (unset) UUID instance. -/
def default_uuid : UUID := { msb := 0, lsb := 0 }

/-- The UCode values the adapter produces. -/
inductive UCode where
  | ok
  | invalidArgument
  | internal
deriving DecidableEq

/-- UStatus: a result value carrying a code and a human-readable message.
Message texts follow the source up to punctuation. -/
structure UStatus where
  code : UCode
  message : String
deriving DecidableEq

/-- UMessageType: the four recognized kinds plus the unspecified default. -/
inductive UMessageType where
  | unspecified
  | publish
  | request
  | response
  | notification
deriving DecidableEq

/-- UAttributes protobuf message.  The ttl field is a protobuf scalar: it
always reads as a Nat (0 when unset), never as None. -/
structure UAttributes where
  type : UMessageType
  id : UUID
  source : UUri
  sink : UUri
  priority : Nat
  ttl : Nat
  reqid : UUID
deriving DecidableEq

/-- UPayload: a format tag plus an opaque byte buffer.  The value field is
a protobuf bytes scalar: empty bytes are falsy in Python. -/
structure UPayload where
  format : Nat
  value : Bytes
deriving DecidableEq

/-- UMessage: attributes plus payload. -/
structure UMessage where
  attributes : UAttributes
  payload : UPayload
deriving DecidableEq

/-! ## Association lists (python dict with serialized-bytes keys) -/

/-- Lookup in an association list (python dict access / dict.get). -/
def alGet {α β : Type} [DecidableEq α] : List (α × β) → α → Option β
  | [], _ => none
  | (a, v) :: t, k => if a = k then some v else alGet t k

/-- Remove a key from an association list (the removal part of dict.pop). -/
def alErase {α β : Type} [DecidableEq α] : List (α × β) → α → List (α × β)
  | [], _ => []
  | (a, v) :: t, k => if a = k then alErase t k else (a, v) :: alErase t k

/-- Insert or overwrite a key (python dict assignment). -/
def alInsert {α β : Type} [DecidableEq α] (m : List (α × β)) (k : α) (v : β) : List (α × β) :=
  (k, v) :: alErase m k

/-! ## Substrate-side objects -/

/-- A zenoh query handle held in the pending-query registry; key_expr is the
key expression of the original query, used to build the reply sample. -/
structure ZQuery where
  key_expr : String
  qid : Nat
deriving DecidableEq

/-- One element of the reply stream of a zenoh get: either a successful
sample (encoding tag plus payload bytes) or a substrate-reported error. -/
inductive ZReply where
  | ok (encoding : Nat) (payload : Bytes)
  | err (e : String)
deriving DecidableEq

/-! ## Adapter state

UPClientZenoh.__init__ (lines 50-59) creates four registries and the
stored source address, and creates exactly three locks: rpc_callback_lock,
queryable_lock and subscriber_lock.  There is no lock for query_map. -/

structure AdapterState where
  subscriber_map : List ((UUri × Listener) × Nat)
  queryable_map : List ((UUri × Listener) × Nat)
  query_map : List (UUID × ZQuery)
  rpc_callback_map : List (UUri × Listener)
  source_uuri : UUri
deriving DecidableEq

/-- A fresh adapter state: all four registries empty, as in __init__. -/
def initState (src : UUri) : AdapterState :=
  { subscriber_map := [], queryable_map := [], query_map := [],
    rpc_callback_map := [], source_uuri := src }

/-! ## External collaborators as parameters -/

/-- The ZenohUtils metadata codec (external collaborator).  A None or falsy
result of uattributes_to_attachment or map_zenoh_priority is modelled as
none; to_zenoh_key_string returns either a key string or a UStatus error
object (the source checks isinstance(result, UStatus) only in
invoke_method). -/
structure Codec where
  uattributes_to_attachment : UAttributes → Option Nat
  map_zenoh_priority : Nat → Option Nat
  to_zenoh_key_string : UUri → Except UStatus String
  to_upayload_format : Nat → Option Nat

/-- The uprotocol attribute validators (external collaborator).  Each
validate call returns a result object; the source never raises from them. -/
structure ValidatorsModel where
  validatePublish : UAttributes → UStatus
  validateNotification : UAttributes → UStatus
  validateRequest : UAttributes → UStatus
  validateResponse : UAttributes → UStatus

/-- The uprotocol UriValidator (external collaborator): topic validation
and classification used by register_listener and unregister_listener. -/
structure ClassifierModel where
  validate : UUri → Bool
  is_rpc_response : UUri → Bool
  is_rpc_method : UUri → Bool

deriving instance DecidableEq for Except

/-! ## Records of substrate calls performed by an operation -/

/-- A session.put call (line 98): key, payload bytes, attachment, zenoh
priority and the encoding suffix str(payload.format). -/
structure PutCall where
  key : Except UStatus String
  value : Bytes
  attachment : Nat
  priority : Nat
  encodingSuffix : Nat
deriving DecidableEq

/-- A session.get call of the request send path (lines 169-175): key,
payload bytes and the timeout handed to zenoh (in seconds, as a rational).
The source passes no attachment on this path. -/
structure GetCall where
  key : Except UStatus String
  value : Bytes
  timeout : ℚ
deriving DecidableEq

/-- A query.reply call (line 194): the reply sample is built from the
original query key expression, the payload bytes and the attachment
(which is passed unchecked and may be none). -/
structure ReplyCall where
  key_expr : String
  value : Bytes
  attachment : Option Nat
deriving DecidableEq

/-- The observable outcome of one send operation: the returned UStatus,
the adapter state afterwards, and the substrate calls performed. -/
structure SendOut where
  status : UStatus
  state : AdapterState
  putCall : Option PutCall
  getCall : Option GetCall
  replyCall : Option ReplyCall
deriving DecidableEq

/-- A SendOut with no substrate call recorded. -/
def mkOut (s : UStatus) (st : AdapterState) : SendOut :=
  { status := s, state := st, putCall := none, getCall := none, replyCall := none }

/-- Boolean success test for Except results. -/
def exceptIsOk {ε α : Type} : Except ε α → Bool
  | .ok _ => true
  | .error _ => false

/-! ## Python-runtime facts used by the source conditions -/

/-- Reading a message-typed protobuf field (such as topic.authority,
topic.entity, topic.resource, attributes.source) yields a message
instance, possibly the default one; protobuf python messages define no
dunder bool, so such a read is always truthy.  The adapter source tests
these reads with plain truthiness. -/
def py_message_field_truthy : Bool := true

/-- The expression attributes.source is None (line 123): a message-typed
field read is never None in the protobuf python runtime. -/
def py_message_field_is_none : Bool := false

/-- The expression attributes.ttl is not None (line 166): a scalar
protobuf field read is never None (an unset ttl reads as 0). -/
def py_ttl_is_not_none : Bool := true

/-- Line 333 and line 364: topic.authority and not topic.entity and not
topic.resource.  Every conjunct is a truthiness test of a message-typed
field read, so the condition evaluates to true and not true and not true,
which is false for every topic. -/
def wildcard_branch (_topic : UUri) : Bool :=
  py_message_field_truthy && (!py_message_field_truthy) && (!py_message_field_truthy)

/-- Line 166: ttl = attributes.ttl / 1000 if attributes.ttl is not None
else 1000.  The timeout handed to zenoh, in seconds. -/
def effective_timeout (ttl : Nat) : ℚ :=
  if py_ttl_is_not_none then (ttl : ℚ) / 1000 else 1000

/-! ## get_response_uuri (lines 61-64)

new_source = self.source_uuri binds an alias of the stored message, not a
copy; new_source.resource.CopyFrom(...) then overwrites the resource of
the stored message in place.  The returned UUri is the stored one. -/

/-- UResourceBuilder.for_rpc_response() (external uprotocol builder),
modelled as a fixed distinguished resource value. -/
def for_rpc_response : UResource := { name := "rpc", id := 32768 }

/-- Embedding of UPClientZenoh.get_response_uuri (lines 61-64): returns
the response address and the adapter state after the call. -/
def get_response_uuri (st : AdapterState) : UUri × AdapterState :=
  let new_source := { st.source_uuri with resource := for_rpc_response }
  (new_source, { st with source_uuri := new_source })

/-! ## Outbound send paths -/

/-- Embedding of UPClientZenoh.send_publish_notification (lines 66-106).
putRes is the outcome of the session.put call, performed only when both
codec steps succeed. -/
def send_publish_notification (c : Codec) (putRes : Except String Unit) (st : AdapterState)
    (zenoh_key : Except UStatus String) (payload : UPayload) (attributes : UAttributes) :
    SendOut :=
  if payload.value = [] then
    mkOut { code := .invalidArgument, message := "The data in UPayload should be Data::Value" } st
  else
    match c.uattributes_to_attachment attributes with
    | none =>
      mkOut { code := .invalidArgument, message := "Unable to transform UAttributes to attachment" } st
    | some attachment =>
      match c.map_zenoh_priority attributes.priority with
      | none =>
        mkOut { code := .invalidArgument, message := "Unable to map to Zenoh priority" } st
      | some priority =>
        let call : PutCall :=
          { key := zenoh_key, value := payload.value, attachment := attachment,
            priority := priority, encodingSuffix := payload.format }
        match putRes with
        | .ok _ =>
          { mkOut { code := .ok, message := "Successfully sent data to Zenoh" } st with
              putCall := some call }
        | .error e =>
          { mkOut { code := .internal, message := "Unable to send with Zenoh: " ++ e } st with
              putCall := some call }

/-- Embedding of UPClientZenoh.send_request (lines 108-178).  The source
issues session.get asynchronously with an inline reply callback and does
not wrap it in try, so no substrate failure parameter appears here; the
recorded GetCall carries the effective timeout of line 166. -/
def send_request (c : Codec) (st : AdapterState) (zenoh_key : Except UStatus String)
    (payload : UPayload) (attributes : UAttributes) : SendOut :=
  if payload.value = [] then
    mkOut { code := .invalidArgument, message := "The data in UPayload should be Data::Value" } st
  else
    match c.uattributes_to_attachment attributes with
    | none =>
      mkOut { code := .invalidArgument, message := "Unable to transform UAttributes to attachment" } st
    | some _attachment =>
      if py_message_field_is_none then
        mkOut { code := .invalidArgument, message := "Lack of source address" } st
      else
        match alGet st.rpc_callback_map attributes.source with
        | none => mkOut { code := .internal, message := "Unable to get callback" } st
        | some _resp_callback =>
          { mkOut { code := .ok, message := "Successfully sent rpc request to Zenoh" } st with
              getCall := some { key := zenoh_key, value := payload.value,
                                timeout := effective_timeout attributes.ttl } }

/-- Embedding of UPClientZenoh.send_response (lines 180-202).  The pending
query is popped from query_map before the reply is attempted; replyRes is
the outcome of the query.reply call. -/
def send_response (c : Codec) (replyRes : Except String Unit) (st : AdapterState)
    (payload : UPayload) (attributes : UAttributes) : SendOut :=
  let attachment := c.uattributes_to_attachment attributes
  let reqid := attributes.reqid
  match alGet st.query_map reqid with
  | none => mkOut { code := .internal, message := "Query does not exist" } st
  | some query =>
    let st1 : AdapterState := { st with query_map := alErase st.query_map reqid }
    let call : ReplyCall :=
      { key_expr := query.key_expr, value := payload.value, attachment := attachment }
    match replyRes with
    | .ok _ =>
      { mkOut { code := .ok, message := "Successfully sent rpc response to Zenoh" } st1 with
          replyCall := some call }
    | .error e =>
      { mkOut { code := .internal, message := "Unable to reply with Zenoh: " ++ e } st1 with
          replyCall := some call }

/-- Embedding of UPClientZenoh.send (lines 303-330).  The validator of
each kind is invoked and its result is discarded, exactly as in the
source; putRes and replyRes are the substrate outcomes handed to the
respective path. -/
def send (c : Codec) (v : ValidatorsModel) (putRes replyRes : Except String Unit)
    (st : AdapterState) (message : UMessage) : SendOut :=
  match message.attributes.type with
  | .publish =>
    let _ := v.validatePublish message.attributes
    send_publish_notification c putRes st
      (c.to_zenoh_key_string message.attributes.source) message.payload message.attributes
  | .notification =>
    let _ := v.validateNotification message.attributes
    send_publish_notification c putRes st
      (c.to_zenoh_key_string message.attributes.sink) message.payload message.attributes
  | .request =>
    let _ := v.validateRequest message.attributes
    send_request c st (c.to_zenoh_key_string message.attributes.sink)
      message.payload message.attributes
  | .response =>
    let _ := v.validateResponse message.attributes
    send_response c replyRes st message.payload message.attributes
  | .unspecified =>
    mkOut { code := .invalidArgument, message := "Wrong Message type in UAttributes" } st

/-! ## Listener registration -/

/-- Embedding of UPClientZenoh.register_response_listener (lines 298-301):
an unconditional insert under rpc_callback_lock, always ok. -/
def register_response_listener (st : AdapterState) (topic : UUri) (listener : Listener) :
    UStatus × AdapterState :=
  ({ code := .ok, message := "Successfully register response callback with Zenoh" },
   { st with rpc_callback_map := alInsert st.rpc_callback_map topic listener })

/-- Embedding of UPClientZenoh.register_publish_notification_listener
(lines 204-251).  subRes is the outcome of session.declare_subscriber:
error models a raised exception, ok none a falsy handle (both reported
internal, no insert), ok some a live handle that is inserted. -/
def register_publish_notification_listener (subRes : Except String (Option Nat))
    (st : AdapterState) (topic : UUri) (listener : Listener) : UStatus × AdapterState :=
  match subRes with
  | .error _ => ({ code := .internal, message := "Unable to register callback with Zenoh" }, st)
  | .ok none => ({ code := .internal, message := "Unable to register callback with Zenoh" }, st)
  | .ok (some handle) =>
    ({ code := .ok, message := "Successfully register callback with Zenoh" },
     { st with subscriber_map := alInsert st.subscriber_map (topic, listener) handle })

/-- Embedding of UPClientZenoh.register_request_listener (lines 253-296).
qryRes is the outcome of session.declare_queryable. -/
def register_request_listener (qryRes : Except String Nat) (st : AdapterState)
    (topic : UUri) (listener : Listener) : UStatus × AdapterState :=
  match qryRes with
  | .error _ => ({ code := .internal, message := "Unable to register callback with Zenoh" }, st)
  | .ok handle =>
    ({ code := .ok, message := "Successfully register callback with Zenoh" },
     { st with queryable_map := alInsert st.queryable_map (topic, listener) handle })

/-- Embedding of UPClientZenoh.register_listener (lines 332-358).  The
wildcard test of line 333 is wildcard_branch; in the classification
branch UriValidator.validate is called and its result discarded, as in
the source. -/
def register_listener (cls : ClassifierModel) (subRes : Except String (Option Nat))
    (qryRes : Except String Nat) (st : AdapterState) (topic : UUri) (listener : Listener) :
    UStatus × AdapterState :=
  if wildcard_branch topic then
    let r1 := register_response_listener st topic listener
    let r2 := register_request_listener qryRes r1.2 topic listener
    let r3 := register_publish_notification_listener subRes r2.2 topic listener
    if r1.1.code = .ok ∧ r2.1.code = .ok ∧ r3.1.code = .ok then
      ({ code := .ok, message := "Successfully register listener with Zenoh" }, r3.2)
    else
      ({ code := .internal, message := "Unsuccessful registration" }, r3.2)
  else
    let _ := cls.validate topic
    let r :=
      if cls.is_rpc_response topic then register_response_listener st topic listener
      else if cls.is_rpc_method topic then register_request_listener qryRes st topic listener
      else register_publish_notification_listener subRes st topic listener
    if r.1.code = .ok then
      ({ code := .ok, message := "Successfully register listener with Zenoh" }, r.2)
    else
      ({ code := .internal, message := "Unsuccessful registration" }, r.2)

/-! ## Listener removal

Each removal does dict.pop(key, None) under its own lock and raises
ValueError when the pop yields None.  A raised ValueError is modelled as
Except.error carrying the message. -/

/-- Embedding of UPClientZenoh._remove_response_listener (lines 384-387). -/
def _remove_response_listener (st : AdapterState) (topic : UUri) :
    Except String AdapterState :=
  match alGet st.rpc_callback_map topic with
  | none => .error "RPC response callback does not exist"
  | some _ => .ok { st with rpc_callback_map := alErase st.rpc_callback_map topic }

/-- Embedding of UPClientZenoh._remove_publish_listener (lines 389-392). -/
def _remove_publish_listener (st : AdapterState) (topic : UUri) (listener : Listener) :
    Except String AdapterState :=
  match alGet st.subscriber_map (topic, listener) with
  | none => .error "Publish listener does not exist"
  | some _ => .ok { st with subscriber_map := alErase st.subscriber_map (topic, listener) }

/-- Embedding of UPClientZenoh._remove_request_listener (lines 394-397). -/
def _remove_request_listener (st : AdapterState) (topic : UUri) (listener : Listener) :
    Except String AdapterState :=
  match alGet st.queryable_map (topic, listener) with
  | none => .error "RPC request listener does not exist"
  | some _ => .ok { st with queryable_map := alErase st.queryable_map (topic, listener) }

/-- Embedding of UPClientZenoh.unregister_listener (lines 360-382).  The
flags triple is (remove_pub_listener, remove_req_listener,
remove_resp_listener); removals run in the source order response,
request, publish, and a raised ValueError propagates. -/
def unregister_listener (cls : ClassifierModel) (st : AdapterState) (topic : UUri)
    (listener : Listener) : Except String AdapterState :=
  let flags : Bool × Bool × Bool :=
    if wildcard_branch topic then (true, true, true)
    else
      let _ := cls.validate topic
      if cls.is_rpc_response topic then (false, false, true)
      else if cls.is_rpc_method topic then (false, true, false)
      else (true, false, false)
  (if flags.2.2 then _remove_response_listener st topic else .ok st).bind fun st1 =>
    (if flags.2.1 then _remove_request_listener st1 topic listener else .ok st1).bind fun st2 =>
      (if flags.1 then _remove_publish_listener st2 topic listener else .ok st2)

/-! ## invoke_method (lines 399-469)

Every failure path of the source executes raise UStatus(...).  UStatus is
a protobuf message, not a BaseException, so that statement itself raises
TypeError; inside the try block the TypeError is caught by except
Exception, whose handler again executes raise UStatus(...) at line 469,
outside any handler, so the caller observes an uncaught TypeError — no
future is ever returned on a failure path.  When the reply stream ends
with no reply (ttl expiry), the for loop exhausts and the function falls
off its end, implicitly returning None — again no future.  Only a first
reply that is a successful sample with a decodable encoding produces a
future, already resolved with the single result message. -/

/-- What the caller of invoke_method observes. -/
inductive InvokeOutcome where
  | resolvedFuture (m : UMessage)
  | noValue
  | uncaughtTypeError
deriving DecidableEq

/-- UPriority.UPRIORITY_CS4 (enum value, opaque here). -/
def UPRIORITY_CS4 : Nat := 5

/-- UAttributesBuilder.request(source, sink, priority, ttl).build()
(external uprotocol builder): request attributes with the given fields;
the generated message id is irrelevant to the claims and fixed. -/
def uattributes_builder_request (source sink : UUri) (priority ttl : Nat) : UAttributes :=
  { type := .request, id := default_uuid, source := source, sink := sink,
    priority := priority, ttl := ttl, reqid := default_uuid }

/-- Embedding of UPClientZenoh.invoke_method (lines 399-469).  validateOk
is the outcome of UriValidator.validate(topic); replies is the content of
the reply stream of session.get — empty when the ttl expired with no
reply.  The source consumes only the first element: it returns a resolved
future on a successful first reply and raises on an error first reply or
an undecodable encoding. -/
def invoke_method (c : Codec) (validateOk : Bool) (replies : List ZReply) (st : AdapterState)
    (topic : UUri) (payload : UPayload) (options_ttl : Nat) : InvokeOutcome × AdapterState :=
  if !validateOk then (.uncaughtTypeError, st)
  else
    match c.to_zenoh_key_string topic with
    | .error _ => (.uncaughtTypeError, st)
    | .ok _zenoh_key =>
      let r := get_response_uuri st
      let uattributes := uattributes_builder_request r.1 topic UPRIORITY_CS4 options_ttl
      let _attachment := c.uattributes_to_attachment uattributes
      if payload.value = [] then (.uncaughtTypeError, r.2)
      else
        match replies with
        | [] => (.noValue, r.2)
        | reply :: _ =>
          match reply with
          | .ok encoding bytes =>
            match c.to_upayload_format encoding with
            | none => (.uncaughtTypeError, r.2)
            | some fmt =>
              (.resolvedFuture { attributes := uattributes,
                                 payload := { format := fmt, value := bytes } }, r.2)
          | .err _ => (.uncaughtTypeError, r.2)

/-! ## Static lock model

__init__ (lines 50-59) creates exactly three locks; every structural
change of a registry in the source is listed below together with the
locks held at that program point. -/

/-- The four registries of the adapter. -/
inductive RegistryName where
  | subscriberMap
  | queryableMap
  | queryMap
  | rpcCallbackMap
deriving DecidableEq

/-- The locks created by __init__ (lines 57-59): rpc_callback_lock,
queryable_lock, subscriber_lock.  No other lock exists in the class. -/
inductive LockName where
  | rpcCallbackLock
  | queryableLock
  | subscriberLock
deriving DecidableEq

/-- One mutating operation on a registry: where it is in the source, the
registry it mutates, and the locks held for the structural change. -/
structure MutOp where
  descr : String
  registry : RegistryName
  locksHeld : List LockName
deriving DecidableEq

/-- The query_map pop of send_response (line 185), performed while no
lock is held. -/
def op_send_response_pop : MutOp :=
  { descr := "send_response query_map pop line 185",
    registry := .queryMap, locksHeld := [] }

/-- Every structural change of a registry in the source:
- line 239: subscriber_map insert, inside with subscriber_lock;
- line 290: queryable_map insert, inside with queryable_lock;
- line 300: rpc_callback_map insert, inside with rpc_callback_lock;
- line 386: rpc_callback_map pop, inside with rpc_callback_lock;
- line 391: subscriber_map pop, inside with subscriber_lock;
- line 396: queryable_map pop, inside with queryable_lock;
- line 284: query_map insert in the queryable callback, no lock held;
- line 185: query_map pop in send_response, no lock held. -/
def mutating_ops : List MutOp :=
  [ { descr := "register_publish_notification_listener insert line 239",
      registry := .subscriberMap, locksHeld := [.subscriberLock] },
    { descr := "register_request_listener insert line 290",
      registry := .queryableMap, locksHeld := [.queryableLock] },
    { descr := "register_response_listener insert line 300",
      registry := .rpcCallbackMap, locksHeld := [.rpcCallbackLock] },
    { descr := "remove_response_listener pop line 386",
      registry := .rpcCallbackMap, locksHeld := [.rpcCallbackLock] },
    { descr := "remove_publish_listener pop line 391",
      registry := .subscriberMap, locksHeld := [.subscriberLock] },
    { descr := "remove_request_listener pop line 396",
      registry := .queryableMap, locksHeld := [.queryableLock] },
    { descr := "queryable callback query_map insert line 284",
      registry := .queryMap, locksHeld := [] },
    op_send_response_pop ]

/-- The lock actually dedicated to each registry in the source: the three
locks of __init__ guard their maps; query_map has none. -/
def dedicated_lock : RegistryName → Option LockName
  | .subscriberMap => some .subscriberLock
  | .queryableMap => some .queryableLock
  | .rpcCallbackMap => some .rpcCallbackLock
  | .queryMap => none

/-! ## Definitions modelled from the spec (for comparison with the code) -/

/-- Modelled from the spec: the effective request timeout of section 4.2 —
interpret the attributes time-to-live (milliseconds) converting to the
substrate time unit (seconds); if absent, apply the substrate default
timeout.  The substrate default is modelled as the fallback constant 1000
that the source itself carries on line 166. -/
def spec_effective_timeout : Option Nat → ℚ
  | some t => (t : ℚ) / 1000
  | none => 1000

/-- Modelled from the spec: the wildcard topic shape of section 3 — an
authority with no entity and no resource, presence being protobuf field
presence. -/
def spec_is_wildcard (t : UUri) : Bool :=
  decide (t.authority ≠ default_uauthority)
    && decide (t.entity = default_uentity)
    && decide (t.resource = default_uresource)

/-- Modelled from the spec: the kind-specific shape rules of section 4.2
(publish: source required and no sink; notification: source and sink;
request: sink and request id; response: response-correlation id).  The
validators themselves live in the external uprotocol library. -/
def spec_shape_valid (a : UAttributes) : Bool :=
  match a.type with
  | .publish => decide (a.source ≠ default_uuri) && decide (a.sink = default_uuri)
  | .notification => decide (a.source ≠ default_uuri) && decide (a.sink ≠ default_uuri)
  | .request => decide (a.sink ≠ default_uuri) && decide (a.id ≠ default_uuid)
  | .response => decide (a.reqid ≠ default_uuid)
  | .unspecified => false

/-! ## Concrete fixtures for the closed theorems and witnesses -/

/-- A codec on which every conversion succeeds. -/
def c0 : Codec :=
  { uattributes_to_attachment := fun _ => some 1,
    map_zenoh_priority := fun _ => some 1,
    to_zenoh_key_string := fun _ => .ok "k",
    to_upayload_format := fun _ => some 0 }

/-- A codec whose attachment encoding fails. -/
def c_fail : Codec :=
  { uattributes_to_attachment := fun _ => none,
    map_zenoh_priority := fun _ => some 1,
    to_zenoh_key_string := fun _ => .ok "k",
    to_upayload_format := fun _ => some 0 }

/-- Validators that reject everything, to exhibit that send discards
their results. -/
def v_reject : ValidatorsModel :=
  { validatePublish := fun _ => { code := .invalidArgument, message := "validation failed" },
    validateNotification := fun _ => { code := .invalidArgument, message := "validation failed" },
    validateRequest := fun _ => { code := .invalidArgument, message := "validation failed" },
    validateResponse := fun _ => { code := .invalidArgument, message := "validation failed" } }

/-- Validators that accept everything. -/
def v0 : ValidatorsModel :=
  { validatePublish := fun _ => { code := .ok, message := "" },
    validateNotification := fun _ => { code := .ok, message := "" },
    validateRequest := fun _ => { code := .ok, message := "" },
    validateResponse := fun _ => { code := .ok, message := "" } }

/-- A classifier under which the sample topics are neither rpc-response
nor rpc-method addresses. -/
def cls0 : ClassifierModel :=
  { validate := fun _ => true,
    is_rpc_response := fun _ => false,
    is_rpc_method := fun _ => false }

/-- A fully populated sample topic. -/
def topicA : UUri :=
  { authority := { name := "vehicle1" },
    entity := { name := "body.access" },
    resource := { name := "door", id := 3 } }

/-- A second sample topic, used as a request sink. -/
def topicB : UUri :=
  { authority := { name := "vehicle2" },
    entity := { name := "chassis" },
    resource := { name := "rpc", id := 17 } }

/-- A topic of the wildcard shape: an authority, no entity, no resource. -/
def wildcard_topic : UUri :=
  { authority := { name := "vehicle1" },
    entity := default_uentity,
    resource := default_uresource }

/-- An empty adapter state with a default source address. -/
def init0 : AdapterState := initState default_uuri

/-- A sample correlation id. -/
def reqid0 : UUID := { msb := 1, lsb := 2 }

/-- A sample pending query handle. -/
def q0 : ZQuery := { key_expr := "vehicle2/chassis/rpc", qid := 0 }

/-- An adapter state whose pending-query registry tracks reqid0. -/
def st_with_query : AdapterState :=
  { init0 with query_map := [(reqid0, q0)] }

/-- An adapter state with a response listener registered for topicA. -/
def st_req : AdapterState :=
  { init0 with rpc_callback_map := [(topicA, 7)] }

/-- A response message correlated to reqid0. -/
def respMsg0 : UMessage :=
  { attributes := { type := .response, id := default_uuid, source := default_uuri,
                    sink := default_uuri, priority := 0, ttl := 0, reqid := reqid0 },
    payload := { format := 0, value := [7] } }

/-- A publish message with source topicA and no sink: shape-valid. -/
def pubMsg0 : UMessage :=
  { attributes := { type := .publish, id := default_uuid, source := topicA,
                    sink := default_uuri, priority := 1, ttl := 0, reqid := default_uuid },
    payload := { format := 0, value := [7] } }

/-- A publish message like pubMsg0 but with empty payload bytes. -/
def emptyPubMsg0 : UMessage :=
  { attributes := { type := .publish, id := default_uuid, source := topicA,
                    sink := default_uuri, priority := 1, ttl := 0, reqid := default_uuid },
    payload := { format := 0, value := [] } }

/-- A publish message carrying a sink as well: it violates the publish
shape rule of the spec. -/
def badPubMsg0 : UMessage :=
  { attributes := { type := .publish, id := default_uuid, source := topicA,
                    sink := topicB, priority := 1, ttl := 0, reqid := default_uuid },
    payload := { format := 0, value := [7] } }

/-- A message whose kind is none of the four recognized kinds. -/
def unspecMsg0 : UMessage :=
  { attributes := { type := .unspecified, id := default_uuid, source := topicA,
                    sink := default_uuri, priority := 1, ttl := 0, reqid := default_uuid },
    payload := { format := 0, value := [7] } }

/-- A request message from topicA to topicB whose ttl is unset (protobuf
scalar default 0). -/
def reqMsg0 : UMessage :=
  { attributes := { type := .request, id := { msb := 9, lsb := 9 }, source := topicA,
                    sink := topicB, priority := 1, ttl := 0, reqid := default_uuid },
    payload := { format := 0, value := [7] } }

/-- An adapter state whose stored source address has a non-rpc-response
resource. -/
def st10 : AdapterState := initState topicA

/-! ## Helper lemmas on association lists -/

theorem alGet_alErase_self {α β : Type} [DecidableEq α] (m : List (α × β)) (k : α) :
    alGet (alErase m k) k = none := by
  induction m with
  | nil => rfl
  | cons p t ih =>
    obtain ⟨a, v⟩ := p
    by_cases h : a = k
    · simpa [alErase, h] using ih
    · simpa [alErase, alGet, h] using ih

theorem alGet_alErase_ne {α β : Type} [DecidableEq α] (m : List (α × β)) (k q : α)
    (h : q ≠ k) : alGet (alErase m k) q = alGet m q := by
  induction m with
  | nil => rfl
  | cons p t ih =>
    obtain ⟨a, v⟩ := p
    by_cases ha : a = k
    · subst ha
      have haq : a ≠ q := fun hh => h hh.symm
      simp [alErase, alGet, haq, ih]
    · by_cases haq : a = q
      · subst haq
        simp [alErase, alGet, h]
      · simp [alErase, alGet, ha, haq, ih]

/-! ## Helper lemmas on the send paths -/

theorem send_publish_notification_state (c : Codec) (putRes : Except String Unit)
    (st : AdapterState) (zk : Except UStatus String) (p : UPayload) (a : UAttributes) :
    (send_publish_notification c putRes st zk p a).state = st := by
  unfold send_publish_notification
  split
  · rfl
  · split
    · rfl
    · split
      · rfl
      · split <;> rfl

theorem send_request_state (c : Codec) (st : AdapterState) (zk : Except UStatus String)
    (p : UPayload) (a : UAttributes) : (send_request c st zk p a).state = st := by
  unfold send_request
  split
  · rfl
  · split
    · rfl
    · split
      · rfl
      · split <;> rfl

/-! ## Claim theorems -/

/-- C1.  On ttl expiry with no reply, invoke_method produces no resolved
future at all: the reply loop exhausts and the function implicitly
returns None; on an error first reply it raises a protobuf UStatus, which
is not a BaseException, so the caller observes an uncaught TypeError; and
when the first reply is a successful sample the call returns a future
already resolved with the single message built from that first reply,
every later reply being ignored.  The claim that the returned future
resolves with an internal-status failure on ttl expiry is false of the
code. -/
theorem C1_invoke_method_outcomes :
    (invoke_method c0 true [] init0 topicB { format := 0, value := [7] } 1000).1
        = InvokeOutcome.noValue
    ∧ (invoke_method c0 true [ZReply.err "timeout"] init0 topicB
        { format := 0, value := [7] } 1000).1 = InvokeOutcome.uncaughtTypeError
    ∧ (invoke_method c0 true [ZReply.ok 0 [1], ZReply.ok 0 [2]] init0 topicB
        { format := 0, value := [7] } 1000).1
        = InvokeOutcome.resolvedFuture
            { attributes := uattributes_builder_request
                { authority := default_uauthority, entity := default_uentity,
                  resource := for_rpc_response } topicB UPRIORITY_CS4 1000,
              payload := { format := 0, value := [1] } } := by
  refine ⟨rfl, rfl, rfl⟩

/-- C4.  Line 166 reads attributes.ttl, a protobuf scalar that is never
None, so the substrate-default fallback of the source is dead code: a
request whose ttl is absent (field reads 0) is issued with timeout
0 / 1000 = 0 seconds, not with the default timeout; a present ttl is
converted to seconds as the spec says. -/
theorem C4_absent_ttl_timeout :
    (send c0 v0 (.ok ()) (.ok ()) st_req reqMsg0).getCall
        = some { key := .ok "k", value := [7], timeout := effective_timeout 0 }
    ∧ effective_timeout 0 = 0
    ∧ effective_timeout 2000 = 2
    ∧ spec_effective_timeout none = 1000
    ∧ effective_timeout 0 ≠ spec_effective_timeout none := by
  refine ⟨rfl, by norm_num [effective_timeout, py_ttl_is_not_none],
    by norm_num [effective_timeout, py_ttl_is_not_none], rfl,
    by norm_num [effective_timeout, py_ttl_is_not_none, spec_effective_timeout]⟩

/-- C5.  send invokes the kind-specific validator but discards its
result: even a validator that rejects every message does not stop the
send, so a publish message violating the publish shape rule (it carries a
sink) is sent and reported ok; only the unrecognized-kind branch fails
with invalid-argument, with no state change and no substrate call.  The
claim that a shape-violating message fails with invalid-argument is false
of the code. -/
theorem C5_validator_result_discarded :
    spec_shape_valid badPubMsg0.attributes = false
    ∧ (send c0 v_reject (.ok ()) (.ok ()) init0 badPubMsg0).status.code = UCode.ok
    ∧ (send c0 v_reject (.ok ()) (.ok ()) init0 unspecMsg0).status.code
        = UCode.invalidArgument
    ∧ (send c0 v_reject (.ok ()) (.ok ()) init0 unspecMsg0).state = init0
    ∧ (send c0 v_reject (.ok ()) (.ok ()) init0 unspecMsg0).putCall = none
    ∧ (send c0 v_reject (.ok ()) (.ok ()) init0 unspecMsg0).getCall = none
    ∧ (send c0 v_reject (.ok ()) (.ok ()) init0 unspecMsg0).replyCall = none := by
  refine ⟨by decide, by decide, by decide, by decide, rfl, rfl, rfl⟩

/-- C7.  The wildcard test of line 333 is a truthiness test of three
message-typed protobuf field reads, which are always truthy, so the
branch that would register response, request and publish listeners
together is unreachable: a topic of the spec wildcard shape falls into
the classification branch and only one registry (here the subscriber
map) is populated.  The in-code comment at lines 334-336 states the
intent of registering all three.  The claim is false of the code. -/
theorem C7_wildcard_branch_dead :
    spec_is_wildcard wildcard_topic = true
    ∧ wildcard_branch wildcard_topic = false
    ∧ (register_listener cls0 (.ok (some 11)) (.ok 12) init0 wildcard_topic 7).1.code
        = UCode.ok
    ∧ (register_listener cls0 (.ok (some 11)) (.ok 12) init0 wildcard_topic 7).2.rpc_callback_map
        = []
    ∧ (register_listener cls0 (.ok (some 11)) (.ok 12) init0 wildcard_topic 7).2.queryable_map
        = []
    ∧ (register_listener cls0 (.ok (some 11)) (.ok 12) init0 wildcard_topic 7).2.subscriber_map
        = [((wildcard_topic, 7), 11)] := by
  refine ⟨by decide, rfl, by decide, rfl, rfl, by decide⟩

/-- C2 counterexample.  A response send whose substrate reply call fails
after the pending-query entry was popped is a failed send (internal
status) that does mutate a registry: the popped entry is gone afterwards.
This refutes the claim that no partial registry mutation survives a
failed send. -/
theorem C2_failed_response_send_mutates_registry :
    (send c0 v0 (.ok ()) (.error "reply failed") st_with_query respMsg0).status.code
        = UCode.internal
    ∧ (send c0 v0 (.ok ()) (.error "reply failed") st_with_query respMsg0).state.query_map
        = []
    ∧ st_with_query.query_map ≠ [] := by
  refine ⟨by decide, by decide, by decide⟩

/-- C9 counterexample.  There is no assignment of a dedicated lock to
each of the four registries under which every mutating operation holds
the lock of the registry it mutates: the source has only three locks, and
both query_map mutations (lines 185 and 284) run without holding any
lock. -/
theorem C9_no_dedicated_lock_assignment :
    ¬ ∃ lockOf : RegistryName → LockName, Function.Injective lockOf
        ∧ ∀ op ∈ mutating_ops, lockOf op.registry ∈ op.locksHeld := by
  rintro ⟨lockOf, -, hall⟩
  have hmem : op_send_response_pop ∈ mutating_ops := by
    simp [mutating_ops]
  have h := hall _ hmem
  simp [op_send_response_pop] at h

/-- C9 amended.  Three of the four registries have a dedicated lock —
subscriber_lock, queryable_lock and rpc_callback_lock, pairwise distinct
— and every mutating operation on those registries holds exactly that
lock; the pending-query registry has no lock, and both of its mutations
run without holding any lock. -/
theorem C9_three_locks_amended :
    (mutating_ops.all fun op =>
      match dedicated_lock op.registry with
      | some l => decide (op.locksHeld = [l])
      | none => decide (op.locksHeld = [])) = true
    ∧ dedicated_lock RegistryName.queryMap = none
    ∧ dedicated_lock RegistryName.subscriberMap ≠ dedicated_lock RegistryName.queryableMap
    ∧ dedicated_lock RegistryName.subscriberMap ≠ dedicated_lock RegistryName.rpcCallbackMap
    ∧ dedicated_lock RegistryName.queryableMap ≠ dedicated_lock RegistryName.rpcCallbackMap := by
  refine ⟨by decide, rfl, by decide, by decide, by decide⟩

/-! ## Reduction lemmas of the router and the publish path -/

theorem send_type_publish_eq (c : Codec) (v : ValidatorsModel)
    (putRes replyRes : Except String Unit) (st : AdapterState) (a : UAttributes)
    (p : UPayload) (hk : a.type = .publish) :
    send c v putRes replyRes st { attributes := a, payload := p }
      = send_publish_notification c putRes st (c.to_zenoh_key_string a.source) p a := by
  obtain ⟨ty, mid, src, snk, pri, ttl, rq⟩ := a
  have h2 : ty = UMessageType.publish := hk
  subst h2
  rfl

theorem send_type_notification_eq (c : Codec) (v : ValidatorsModel)
    (putRes replyRes : Except String Unit) (st : AdapterState) (a : UAttributes)
    (p : UPayload) (hk : a.type = .notification) :
    send c v putRes replyRes st { attributes := a, payload := p }
      = send_publish_notification c putRes st (c.to_zenoh_key_string a.sink) p a := by
  obtain ⟨ty, mid, src, snk, pri, ttl, rq⟩ := a
  have h2 : ty = UMessageType.notification := hk
  subst h2
  rfl

theorem send_type_request_eq (c : Codec) (v : ValidatorsModel)
    (putRes replyRes : Except String Unit) (st : AdapterState) (a : UAttributes)
    (p : UPayload) (hk : a.type = .request) :
    send c v putRes replyRes st { attributes := a, payload := p }
      = send_request c st (c.to_zenoh_key_string a.sink) p a := by
  obtain ⟨ty, mid, src, snk, pri, ttl, rq⟩ := a
  have h2 : ty = UMessageType.request := hk
  subst h2
  rfl

theorem send_type_response_eq (c : Codec) (v : ValidatorsModel)
    (putRes replyRes : Except String Unit) (st : AdapterState) (a : UAttributes)
    (p : UPayload) (hk : a.type = .response) :
    send c v putRes replyRes st { attributes := a, payload := p }
      = send_response c replyRes st p a := by
  obtain ⟨ty, mid, src, snk, pri, ttl, rq⟩ := a
  have h2 : ty = UMessageType.response := hk
  subst h2
  rfl

theorem send_pn_contract (c : Codec) (putRes : Except String Unit) (st : AdapterState)
    (zk : Except UStatus String) (p : UPayload) (a : UAttributes) (hp : p.value ≠ []) :
    ((send_publish_notification c putRes st zk p a).status.code = UCode.ok ↔
      (c.uattributes_to_attachment a).isSome = true
      ∧ (c.map_zenoh_priority a.priority).isSome = true
      ∧ exceptIsOk putRes = true)
    ∧ ((c.uattributes_to_attachment a = none ∨ c.map_zenoh_priority a.priority = none) →
        (send_publish_notification c putRes st zk p a).status.code = UCode.invalidArgument
        ∧ (send_publish_notification c putRes st zk p a).putCall = none)
    ∧ (∀ e, putRes = Except.error e →
        (c.uattributes_to_attachment a).isSome = true →
        (c.map_zenoh_priority a.priority).isSome = true →
        (send_publish_notification c putRes st zk p a).status.code = UCode.internal) := by
  rcases hatt : c.uattributes_to_attachment a with _ | att <;>
    rcases hpri : c.map_zenoh_priority a.priority with _ | pr <;>
      rcases putRes with e | u <;>
        simp [send_publish_notification, hp, hatt, hpri, mkOut, exceptIsOk]

/-- C2 amended.  Every send leaves the subscription, queryable and
RPC-response-listener registries untouched, and the publish, notification,
request and unrecognized-kind paths touch no registry at all — failed or
not; the single exception forced by the counterexample is the response
path, whose only mutation is the removal of the popped pending-query
entry, which stays removed even when the substrate reply call then
fails. -/
theorem C2_send_registry_frame (c : Codec) (v : ValidatorsModel)
    (putRes replyRes : Except String Unit) (st : AdapterState) (message : UMessage) :
    (message.attributes.type ≠ .response →
      (send c v putRes replyRes st message).state = st)
    ∧ (message.attributes.type = .response →
        (alGet st.query_map message.attributes.reqid = none →
          (send c v putRes replyRes st message).state = st)
        ∧ (∀ q, alGet st.query_map message.attributes.reqid = some q →
            (send c v putRes replyRes st message).state
              = { st with query_map := alErase st.query_map message.attributes.reqid })) := by
  obtain ⟨a, p⟩ := message
  constructor
  · intro hne
    rcases hty : a.type with _ | _ | _ | _ | _
    · rw [show (send c v putRes replyRes st { attributes := a, payload := p })
          = mkOut { code := .invalidArgument, message := "Wrong Message type in UAttributes" } st
          from by
        obtain ⟨ty, mid, src, snk, pri, ttl, rq⟩ := a
        have h2 : ty = UMessageType.unspecified := hty
        subst h2
        rfl]
      rfl
    · rw [send_type_publish_eq c v putRes replyRes st a p hty]
      exact send_publish_notification_state _ _ _ _ _ _
    · rw [send_type_request_eq c v putRes replyRes st a p hty]
      exact send_request_state _ _ _ _ _
    · exact absurd hty hne
    · rw [send_type_notification_eq c v putRes replyRes st a p hty]
      exact send_publish_notification_state _ _ _ _ _ _
  · intro hty
    rw [send_type_response_eq c v putRes replyRes st a p hty]
    constructor
    · intro hnone
      simp [send_response, hnone, mkOut]
    · intro q hq
      simp only [send_response, hq]
      cases replyRes <;> rfl

/-- C2 amended, witness: a failed publish send leaves the state intact,
and a response send whose reply fails leaves exactly the popped entry
removed. -/
theorem C2_send_registry_frame_witness :
    (send c0 v0 (.error "put failed") (.ok ()) init0 pubMsg0).state = init0
    ∧ (send c0 v0 (.ok ()) (.error "reply failed") st_with_query respMsg0).state
        = { st_with_query with
              query_map := alErase st_with_query.query_map respMsg0.attributes.reqid } := by
  refine ⟨(C2_send_registry_frame c0 v0 (.error "put failed") (.ok ()) init0 pubMsg0).1
      (by decide), ?_⟩
  exact ((C2_send_registry_frame c0 v0 (.ok ()) (.error "reply failed") st_with_query
      respMsg0).2 rfl).2 q0 (by decide)

/-- C3.  A response whose correlation id is not tracked in the
pending-query registry yields an internal status, no substrate reply call
and an unchanged state; a tracked id has its entry removed exactly once
(it is gone afterwards and every other key is untouched, as are the other
three registries) and the substrate reply is issued against the original
query key expression. -/
theorem C3_send_response_correlation (c : Codec) (v : ValidatorsModel)
    (putRes replyRes : Except String Unit) (st : AdapterState) (message : UMessage)
    (hk : message.attributes.type = .response) :
    (alGet st.query_map message.attributes.reqid = none →
      (send c v putRes replyRes st message).status.code = UCode.internal
      ∧ (send c v putRes replyRes st message).replyCall = none
      ∧ (send c v putRes replyRes st message).state = st)
    ∧ (∀ q, alGet st.query_map message.attributes.reqid = some q →
        (send c v putRes replyRes st message).replyCall
          = some { key_expr := q.key_expr, value := message.payload.value,
                   attachment := c.uattributes_to_attachment message.attributes }
        ∧ (send c v putRes replyRes st message).state.query_map
            = alErase st.query_map message.attributes.reqid
        ∧ alGet (send c v putRes replyRes st message).state.query_map
            message.attributes.reqid = none
        ∧ (∀ k, k ≠ message.attributes.reqid →
            alGet (send c v putRes replyRes st message).state.query_map k
              = alGet st.query_map k)
        ∧ (send c v putRes replyRes st message).state.subscriber_map = st.subscriber_map
        ∧ (send c v putRes replyRes st message).state.queryable_map = st.queryable_map
        ∧ (send c v putRes replyRes st message).state.rpc_callback_map
            = st.rpc_callback_map) := by
  obtain ⟨a, p⟩ := message
  rw [send_type_response_eq c v putRes replyRes st a p hk]
  constructor
  · intro hnone
    simp [send_response, hnone, mkOut]
  · intro q hq
    simp only [send_response, hq]
    cases replyRes <;>
      simp [mkOut, alGet_alErase_self] <;>
        exact fun k hk2 => alGet_alErase_ne st.query_map a.reqid k hk2

/-- C3 witness: the tracked branch evaluated at a concrete state. -/
theorem C3_send_response_correlation_witness :
    (send c0 v0 (.ok ()) (.ok ()) st_with_query respMsg0).replyCall
      = some { key_expr := q0.key_expr, value := respMsg0.payload.value,
               attachment := c0.uattributes_to_attachment respMsg0.attributes }
    ∧ (send c0 v0 (.ok ()) (.ok ()) st_with_query respMsg0).state.query_map
        = alErase st_with_query.query_map respMsg0.attributes.reqid
    ∧ alGet (send c0 v0 (.ok ()) (.ok ()) st_with_query respMsg0).state.query_map
        respMsg0.attributes.reqid = none
    ∧ (send c0 v0 (.ok ()) (.ok ()) st_with_query respMsg0).state.rpc_callback_map
        = st_with_query.rpc_callback_map := by
  have h := (C3_send_response_correlation c0 v0 (.ok ()) (.ok ()) st_with_query respMsg0
      rfl).2 q0 (by decide)
  exact ⟨h.1, h.2.1, h.2.2.1, h.2.2.2.2.2.2⟩

/-- C6.  For a publish or notification message, the adapter state is
never changed, so no failure case has any observable effect on the
registries; an empty payload yields invalid-argument with no substrate
call; and with non-empty payload, send returns ok exactly when the
attachment encoding, the priority mapping and the substrate put all
succeed, a codec failure yields invalid-argument with no substrate call,
and a substrate exception after successful codec steps yields
internal. -/
theorem C6_publish_notification_contract (c : Codec) (v : ValidatorsModel)
    (putRes replyRes : Except String Unit) (st : AdapterState) (message : UMessage)
    (hk : message.attributes.type = .publish ∨ message.attributes.type = .notification) :
    (send c v putRes replyRes st message).state = st
    ∧ (message.payload.value = [] →
        (send c v putRes replyRes st message).status.code = UCode.invalidArgument
        ∧ (send c v putRes replyRes st message).putCall = none)
    ∧ (message.payload.value ≠ [] →
        ((send c v putRes replyRes st message).status.code = UCode.ok ↔
          (c.uattributes_to_attachment message.attributes).isSome = true
          ∧ (c.map_zenoh_priority message.attributes.priority).isSome = true
          ∧ exceptIsOk putRes = true)
        ∧ ((c.uattributes_to_attachment message.attributes = none
            ∨ c.map_zenoh_priority message.attributes.priority = none) →
            (send c v putRes replyRes st message).status.code = UCode.invalidArgument
            ∧ (send c v putRes replyRes st message).putCall = none)
        ∧ (∀ e, putRes = Except.error e →
            (c.uattributes_to_attachment message.attributes).isSome = true →
            (c.map_zenoh_priority message.attributes.priority).isSome = true →
            (send c v putRes replyRes st message).status.code = UCode.internal)) := by
  obtain ⟨a, p⟩ := message
  rcases hk with h | h
  · rw [send_type_publish_eq c v putRes replyRes st a p h]
    refine ⟨send_publish_notification_state _ _ _ _ _ _, ?_, ?_⟩
    · intro hp0
      have hp1 : p.value = [] := hp0
      simp [send_publish_notification, hp1, mkOut]
    · intro hp
      exact send_pn_contract c putRes st (c.to_zenoh_key_string a.source) p a hp
  · rw [send_type_notification_eq c v putRes replyRes st a p h]
    refine ⟨send_publish_notification_state _ _ _ _ _ _, ?_, ?_⟩
    · intro hp0
      have hp1 : p.value = [] := hp0
      simp [send_publish_notification, hp1, mkOut]
    · intro hp
      exact send_pn_contract c putRes st (c.to_zenoh_key_string a.sink) p a hp

/-- C6 witness: success, empty payload, codec failure and substrate
failure evaluated on concrete publish messages. -/
theorem C6_publish_notification_contract_witness :
    (send c0 v0 (.ok ()) (.ok ()) init0 pubMsg0).status.code = UCode.ok
    ∧ (send c0 v0 (.ok ()) (.ok ()) init0 pubMsg0).state = init0
    ∧ (send c0 v0 (.ok ()) (.ok ()) init0 emptyPubMsg0).status.code = UCode.invalidArgument
    ∧ (send c0 v0 (.ok ()) (.ok ()) init0 emptyPubMsg0).putCall = none
    ∧ (send c0 v0 (.ok ()) (.ok ()) init0 emptyPubMsg0).state = init0
    ∧ (send c_fail v0 (.ok ()) (.ok ()) init0 pubMsg0).status.code = UCode.invalidArgument
    ∧ (send c_fail v0 (.ok ()) (.ok ()) init0 pubMsg0).putCall = none
    ∧ (send c0 v0 (.error "put failed") (.ok ()) init0 pubMsg0).status.code
        = UCode.internal := by
  have h1 := C6_publish_notification_contract c0 v0 (.ok ()) (.ok ()) init0 pubMsg0
      (Or.inl rfl)
  have h0 := C6_publish_notification_contract c0 v0 (.ok ()) (.ok ()) init0 emptyPubMsg0
      (Or.inl rfl)
  have h2 := C6_publish_notification_contract c_fail v0 (.ok ()) (.ok ()) init0 pubMsg0
      (Or.inl rfl)
  have h3 := C6_publish_notification_contract c0 v0 (.error "put failed") (.ok ()) init0
      pubMsg0 (Or.inl rfl)
  exact ⟨((h1.2.2 (by decide)).1).mpr ⟨rfl, rfl, rfl⟩, h1.1,
    (h0.2.1 rfl).1, (h0.2.1 rfl).2, h0.1,
    ((h2.2.2 (by decide)).2.1 (Or.inl rfl)).1,
    ((h2.2.2 (by decide)).2.1 (Or.inl rfl)).2,
    (h3.2.2 (by decide)).2.2 "put failed" rfl rfl rfl⟩

/-- C8.  When nothing is registered in the registry that the
classification of unregister_listener targets, the removal raises (the
result is an error, never an ok status); and a successful
register_listener followed by unregister_listener for the same
(topic, listener) pair restores the fresh state exactly, whatever the
classification of the topic. -/
theorem C8_unregister_contract (cls : ClassifierModel) (st : AdapterState) (topic : UUri)
    (listener : Listener) (src : UUri) (subH qryH : Nat) :
    (cls.is_rpc_response topic = true →
      alGet st.rpc_callback_map topic = none →
      exceptIsOk (unregister_listener cls st topic listener) = false)
    ∧ (cls.is_rpc_response topic = false → cls.is_rpc_method topic = true →
      alGet st.queryable_map (topic, listener) = none →
      exceptIsOk (unregister_listener cls st topic listener) = false)
    ∧ (cls.is_rpc_response topic = false → cls.is_rpc_method topic = false →
      alGet st.subscriber_map (topic, listener) = none →
      exceptIsOk (unregister_listener cls st topic listener) = false)
    ∧ (register_listener cls (.ok (some subH)) (.ok qryH) (initState src) topic
        listener).1.code = UCode.ok
    ∧ unregister_listener cls
        (register_listener cls (.ok (some subH)) (.ok qryH) (initState src) topic listener).2
        topic listener = .ok (initState src) := by
  refine ⟨?_, ?_, ?_, ?_, ?_⟩
  · intro h1 h2
    simp [unregister_listener, wildcard_branch, py_message_field_truthy, h1,
      _remove_response_listener, h2, Except.bind, exceptIsOk]
  · intro h1 h2 h3
    simp [unregister_listener, wildcard_branch, py_message_field_truthy, h1, h2,
      _remove_request_listener, h3, Except.bind, exceptIsOk]
  · intro h1 h2 h3
    simp [unregister_listener, wildcard_branch, py_message_field_truthy, h1, h2,
      _remove_publish_listener, h3, Except.bind, exceptIsOk]
  · rcases h1 : cls.is_rpc_response topic <;> rcases h2 : cls.is_rpc_method topic <;>
      simp [register_listener, wildcard_branch, py_message_field_truthy, h1, h2,
        register_response_listener, register_request_listener,
        register_publish_notification_listener]
  · rcases h1 : cls.is_rpc_response topic <;> rcases h2 : cls.is_rpc_method topic <;>
      simp [register_listener, unregister_listener, wildcard_branch,
        py_message_field_truthy, h1, h2, register_response_listener,
        register_request_listener, register_publish_notification_listener,
        _remove_response_listener, _remove_publish_listener, _remove_request_listener,
        alInsert, alGet, alErase, initState, Except.bind]

/-- C8 witness: unregistering a never-registered pair on a fresh state
errors, and a register/unregister round trip restores the fresh state. -/
theorem C8_unregister_contract_witness :
    exceptIsOk (unregister_listener cls0 init0 topicA 7) = false
    ∧ (register_listener cls0 (.ok (some 11)) (.ok 12) (initState default_uuri) topicA
        7).1.code = UCode.ok
    ∧ unregister_listener cls0
        (register_listener cls0 (.ok (some 11)) (.ok 12) (initState default_uuri) topicA 7).2
        topicA 7 = .ok (initState default_uuri) := by
  have h := C8_unregister_contract cls0 init0 topicA 7 default_uuri 11 12
  exact ⟨h.2.2.1 rfl rfl rfl, h.2.2.2.1, h.2.2.2.2⟩

/-- C10.  get_response_uuri aliases the stored source address instead of
copying it: the returned UUri is the stored one after the call, the
stored source address now carries the rpc-response resource, and whenever
the stored resource was not already the rpc-response resource the adapter
state has genuinely changed. -/
theorem C10_get_response_uuri_mutates (st : AdapterState)
    (h : st.source_uuri.resource ≠ for_rpc_response) :
    (get_response_uuri st).1 = (get_response_uuri st).2.source_uuri
    ∧ (get_response_uuri st).2.source_uuri
        = { st.source_uuri with resource := for_rpc_response }
    ∧ (get_response_uuri st).2.source_uuri ≠ st.source_uuri := by
  refine ⟨rfl, rfl, ?_⟩
  intro heq
  have h2 : for_rpc_response = st.source_uuri.resource := congrArg UUri.resource heq
  exact h h2.symm

/-- C10 witness: the mutation on a concrete state whose source resource
differs from the rpc-response resource. -/
theorem C10_get_response_uuri_mutates_witness :
    (get_response_uuri st10).1 = (get_response_uuri st10).2.source_uuri
    ∧ (get_response_uuri st10).2.source_uuri
        = { st10.source_uuri with resource := for_rpc_response }
    ∧ (get_response_uuri st10).2.source_uuri ≠ st10.source_uuri :=
  C10_get_response_uuri_mutates st10 (by decide)
